import Mathlib

set_option maxHeartbeats 1000000

/-!
Verification of the xq query-engine error taxonomy and CLI driver
(`src/vm/error.rs`, `src/bin/main.rs`) against its specification.
-/

mutual

/-- Modelled from the spec (§3): the JSON `Value` tagged union of the `xq`
crate, which is not under `src/`. Null; Boolean; Number (with enough
precision to test integrality, modelled as a rational); String; Array
(ordered sequence of Values); Object (String-keyed entries, insertion
order preserved). Arrays and objects are represented by the mutual list
types `ValueList` and `ObjEntries`. -/
inductive Value where
  | null : Value
  | boolean (b : Bool) : Value
  | number (n : ℚ) : Value
  | string (s : String) : Value
  | array (xs : ValueList) : Value
  | object (kvs : ObjEntries) : Value

/-- Ordered sequence of `Value`s (an Array's elements). -/
inductive ValueList where
  | nil : ValueList
  | cons (v : Value) (rest : ValueList) : ValueList

/-- Ordered String-keyed entries (an Object's fields, insertion order). -/
inductive ObjEntries where
  | nil : ObjEntries
  | cons (k : String) (v : Value) (rest : ObjEntries) : ObjEntries

end

deriving instance DecidableEq for Value, ValueList, ObjEntries

/-- Rational numbers stand in for the crate's `Number`. -/
abbrev Number := ℚ

/-- The runtime error enum from `src/vm/error.rs` (`QueryExecutionError`),
with its twelve cases and their payloads, embedded constructor for
constructor. -/
inductive QueryExecutionError where
  | ObjectIndexByNonString (v : Value) : QueryExecutionError
  | ArrayIndexByNonInt (v : Value) : QueryExecutionError
  | SliceByNonInt (v : Value) : QueryExecutionError
  | IterateOnNonIterable (v : Value) : QueryExecutionError
  | IndexOnNonIndexable (v : Value) : QueryExecutionError
  | SliceOnNonArrayNorString (v : Value) : QueryExecutionError
  | NonIntegralNumber (n : Number) : QueryExecutionError
  | UnaryOnNonNumeric (op : String) (v : Value) : QueryExecutionError
  | IncompatibleBinaryOperator (op : String) (lhs rhs : Value) : QueryExecutionError
  | StringRepeatByNonUSize (n : Number) : QueryExecutionError
  | DivModByZero : QueryExecutionError
  | ObjectNonStringKey (v : Value) : QueryExecutionError
deriving DecidableEq

/-- One payload field carried by a `QueryExecutionError` case: an offending
`Value`, an offending `Number`, or an operator symbol (`&'static str`). -/
inductive ErrorPayload where
  | val (v : Value) : ErrorPayload
  | num (n : Number) : ErrorPayload
  | op (s : String) : ErrorPayload
deriving DecidableEq

namespace QueryExecutionError

/-- The payload fields of each case, in declaration order, read off the
constructors of `QueryExecutionError` in `src/vm/error.rs`. -/
def payloads : QueryExecutionError → List ErrorPayload
  | .ObjectIndexByNonString v => [.val v]
  | .ArrayIndexByNonInt v => [.val v]
  | .SliceByNonInt v => [.val v]
  | .IterateOnNonIterable v => [.val v]
  | .IndexOnNonIndexable v => [.val v]
  | .SliceOnNonArrayNorString v => [.val v]
  | .NonIntegralNumber n => [.num n]
  | .UnaryOnNonNumeric o v => [.op o, .val v]
  | .IncompatibleBinaryOperator o l r => [.op o, .val l, .val r]
  | .StringRepeatByNonUSize n => [.num n]
  | .DivModByZero => []
  | .ObjectNonStringKey v => [.val v]

/-- Projection of the `UnaryOnNonNumeric` case: the operator symbol and the
single offending value, `none` on every other case. -/
def unaryParts : QueryExecutionError → Option (String × Value)
  | .UnaryOnNonNumeric o v => some (o, v)
  | _ => none

/-- Projection of the `IncompatibleBinaryOperator` case: the operator symbol
and both operands, `none` on every other case. -/
def binaryParts : QueryExecutionError → Option (String × Value × Value)
  | .IncompatibleBinaryOperator o l r => some (o, l, r)
  | _ => none

end QueryExecutionError

mutual

/-- Modelled from the spec: the `Debug` rendering of a `Value` (the `Value`
type and its `Debug` instance belong to the `xq` crate, not under `src/`).
Only the template text surrounding a `{0:?}` slot in `src/vm/error.rs`
matters to the claims; this renderer fills the slot deterministically. -/
def debugRepr : Value → String
  | .null => "Null"
  | .boolean b => "Boolean(" ++ toString b ++ ")"
  | .number n => "Number(" ++ toString n ++ ")"
  | .string s => "String(" ++ s ++ ")"
  | .array xs => "Array [" ++ debugReprList xs ++ "]"
  | .object kvs => "Object [" ++ debugReprEntries kvs ++ "]"

/-- Debug rendering of an array's elements, comma separated. -/
def debugReprList : ValueList → String
  | .nil => ""
  | .cons v .nil => debugRepr v
  | .cons v rest => debugRepr v ++ ", " ++ debugReprList rest

/-- Debug rendering of an object's entries, comma separated. -/
def debugReprEntries : ObjEntries → String
  | .nil => ""
  | .cons k v .nil => k ++ ": " ++ debugRepr v
  | .cons k v rest => k ++ ": " ++ debugRepr v ++ ", " ++ debugReprEntries rest

end

/-- `Debug` rendering of a `&'static str` operator symbol (`{0:?}` quotes
it). -/
def strDebug (s : String) : String := "\"" ++ s ++ "\""

namespace QueryExecutionError

/-- The user-visible diagnostic of each case, transcribed template for
template from the `#[error("...")]` attributes in `src/vm/error.rs`, with
each `{i:?}` slot filled by the debug rendering of the corresponding
payload. -/
def message : QueryExecutionError → String
  | .ObjectIndexByNonString v =>
      "Object was indexed by non-string value `" ++ debugRepr v ++ "`"
  | .ArrayIndexByNonInt v =>
      "Object was indexed by non-integer value `" ++ debugRepr v ++ "`"
  | .SliceByNonInt v =>
      "Slice on non-array `" ++ debugRepr v ++ "`"
  | .IterateOnNonIterable v =>
      "Cannot iterate over non-iterable value `" ++ debugRepr v ++ "`"
  | .IndexOnNonIndexable v =>
      "Cannot index on non-indexable value `" ++ debugRepr v ++ "`"
  | .SliceOnNonArrayNorString v =>
      "Slice on not an array nor a string `" ++ debugRepr v ++ "`"
  | .NonIntegralNumber n =>
      "Expected an integer but got a non-integral value `" ++ toString n ++ "`"
  | .UnaryOnNonNumeric o v =>
      "Unary " ++ strDebug o ++ " negation was applied to non-numeric value `"
        ++ debugRepr v ++ "`"
  | .IncompatibleBinaryOperator o l r =>
      "Cannot " ++ strDebug o ++ " `" ++ debugRepr l ++ "` and `"
        ++ debugRepr r ++ "`"
  | .StringRepeatByNonUSize n =>
      "Cannot repeat string `" ++ toString n ++ "` times"
  | .DivModByZero => "Cannot divide/modulo by zero"
  | .ObjectNonStringKey v =>
      "Tried to construct an object with non-string key `" ++ debugRepr v ++ "`"

end QueryExecutionError

/-- Does `l` start with `pat`, character for character? -/
def charsStartWith : List Char → List Char → Bool
  | _, [] => true
  | [], _ :: _ => false
  | c :: cs, p :: ps => c == p && charsStartWith cs ps

/-- Does `l` contain `pat` as a contiguous run of characters? -/
def charsContain : List Char → List Char → Bool
  | [], pat => charsStartWith [] pat
  | c :: cs, pat => charsStartWith (c :: cs) pat || charsContain cs pat

/-- `s` mentions an array: it contains the run "rray" (covering both
"Array" and "array"). -/
def mentionsArray (s : String) : Bool := charsContain s.data ("rray".data)

/-- `s` mentions integrality: it contains the run "ntegr" (covering
"integer", "integral", "non-integral", ...). -/
def mentionsIntegrality (s : String) : Bool := charsContain s.data ("ntegr".data)

mutual

/-- `Value::clone` as produced by `derive(Clone)` on the value tree: each
node is rebuilt field by field (composite payloads deeply). Modelled from
the spec, the `Value` type being outside `src/`. -/
def cloneValue : Value → Value
  | .null => .null
  | .boolean b => .boolean b
  | .number n => .number n
  | .string s => .string s
  | .array xs => .array (cloneValueList xs)
  | .object kvs => .object (cloneObjEntries kvs)

/-- Clone of an array's element sequence. -/
def cloneValueList : ValueList → ValueList
  | .nil => .nil
  | .cons v rest => .cons (cloneValue v) (cloneValueList rest)

/-- Clone of an object's entry sequence. -/
def cloneObjEntries : ObjEntries → ObjEntries
  | .nil => .nil
  | .cons k v rest => .cons k (cloneValue v) (cloneObjEntries rest)

end

namespace QueryExecutionError

/-- `QueryExecutionError::clone`, from `derive(Clone)` in
`src/vm/error.rs`: each case is rebuilt, cloning every payload field. -/
def clone : QueryExecutionError → QueryExecutionError
  | .ObjectIndexByNonString v => .ObjectIndexByNonString (cloneValue v)
  | .ArrayIndexByNonInt v => .ArrayIndexByNonInt (cloneValue v)
  | .SliceByNonInt v => .SliceByNonInt (cloneValue v)
  | .IterateOnNonIterable v => .IterateOnNonIterable (cloneValue v)
  | .IndexOnNonIndexable v => .IndexOnNonIndexable (cloneValue v)
  | .SliceOnNonArrayNorString v => .SliceOnNonArrayNorString (cloneValue v)
  | .NonIntegralNumber n => .NonIntegralNumber n
  | .UnaryOnNonNumeric o v => .UnaryOnNonNumeric o (cloneValue v)
  | .IncompatibleBinaryOperator o l r =>
      .IncompatibleBinaryOperator o (cloneValue l) (cloneValue r)
  | .StringRepeatByNonUSize n => .StringRepeatByNonUSize n
  | .DivModByZero => .DivModByZero
  | .ObjectNonStringKey v => .ObjectNonStringKey (cloneValue v)

/-- Structural equality from `derive(PartialEq, Eq)` in `src/vm/error.rs`:
two errors are equal exactly when they are the same case with equal
payloads (payload equality delegates to the payload types' own derived
structural equality, modelled by their decidable propositional equality). -/
def beq : QueryExecutionError → QueryExecutionError → Bool
  | .ObjectIndexByNonString a, .ObjectIndexByNonString b => decide (a = b)
  | .ArrayIndexByNonInt a, .ArrayIndexByNonInt b => decide (a = b)
  | .SliceByNonInt a, .SliceByNonInt b => decide (a = b)
  | .IterateOnNonIterable a, .IterateOnNonIterable b => decide (a = b)
  | .IndexOnNonIndexable a, .IndexOnNonIndexable b => decide (a = b)
  | .SliceOnNonArrayNorString a, .SliceOnNonArrayNorString b => decide (a = b)
  | .NonIntegralNumber a, .NonIntegralNumber b => decide (a = b)
  | .UnaryOnNonNumeric o₁ v₁, .UnaryOnNonNumeric o₂ v₂ =>
      decide (o₁ = o₂) && decide (v₁ = v₂)
  | .IncompatibleBinaryOperator o₁ l₁ r₁, .IncompatibleBinaryOperator o₂ l₂ r₂ =>
      decide (o₁ = o₂) && decide (l₁ = l₂) && decide (r₁ = r₂)
  | .StringRepeatByNonUSize a, .StringRepeatByNonUSize b => decide (a = b)
  | .DivModByZero, .DivModByZero => true
  | .ObjectNonStringKey a, .ObjectNonStringKey b => decide (a = b)
  | _, _ => false

end QueryExecutionError

/-- The outcome `run_with_env` produces for one document: the values it
emitted (already delivered through the continuation) and an optional
terminal error. The driver in `src/bin/main.rs` discards the call's result
entirely, which is what makes evaluation failures non-fatal to the run. -/
structure EvalOutcome where
  outputs : List Value
  failure : Option QueryExecutionError
deriving DecidableEq

/-- The document loop of `main` in `src/bin/main.rs`: serde_json's stream
iterator yields one decode result per document; `let elem = elem?` returns
the first decode error from `main` immediately; otherwise `run_with_env`
(here the parameter `runDoc`) is run to completion on the decoded value and
the loop advances. Returns the per-document traces in processing order,
paired with the decode error `main` returned, if any. -/
def mainLoop (runDoc : Value → EvalOutcome) :
    List (Except String Value) → List (Value × EvalOutcome) × Option String
  | [] => ([], none)
  | .error e :: _ => ([], some e)
  | .ok v :: rest =>
      let outcome := runDoc v
      let (ts, err) := mainLoop runDoc rest
      ((v, outcome) :: ts, err)

/-- The `log::LevelFilter` values used by `init_log` in
`src/bin/main.rs`. -/
inductive LevelFilter where
  | Off : LevelFilter
  | Error : LevelFilter
  | Warn : LevelFilter
  | Info : LevelFilter
  | Debug : LevelFilter
  | Trace : LevelFilter
deriving DecidableEq

/-- The `levels` array of `init_log`:
`[Off, Error, Warn, Info, Debug, Trace]`. -/
def levels : List LevelFilter :=
  [.Off, .Error, .Warn, .Info, .Debug, .Trace]

/-- The index `(verbosity as usize).clamp(0, levels.len() - 1)` computed by
`init_log`; on an unsigned integer the lower clamp bound is vacuous. -/
def levelIndex (verbosity : Nat) : Nat :=
  min (max verbosity 0) (levels.length - 1)

/-- The level `init_log` selects: `levels[levelIndex verbosity]` (total
here via a default that the C8 bound shows is never consulted). -/
def selectedLevel (verbosity : Nat) : LevelFilter :=
  levels.getD (levelIndex verbosity) .Off

/-- Position of a level in the `levels` array, ordering the filters from
`Off` (least verbose) to `Trace` (most verbose). -/
def levelRank : LevelFilter → Nat
  | .Off => 0
  | .Error => 1
  | .Warn => 2
  | .Info => 3
  | .Debug => 4
  | .Trace => 5

/-- The fields of `xq::runner::Env` the emission callback in `main` reads:
just `current_object`, the optional value to print. -/
structure EnvModel where
  currentObject : Option Value

/-- Observable output state of the driver: lines written to stdout and
messages logged via `log::error!`. -/
structure OutState where
  out : List String
  logs : List String
deriving DecidableEq

/-- The emission callback closure passed to `run_with_env` by `main` in
`src/bin/main.rs`. External I/O is abstracted by parameters: `pretty`
models `serde_json::ser::to_writer_pretty`'s rendering of a value,
`writeValue obj` the outcome of that write, and `writeLn` the outcome of
the following `writeln!`. If `current_object` is present the callback
writes the pretty-printed value then a newline; the first failing write
step is logged (`log::error!("Error: ...")`) and the callback returns
normally either way — it has no error channel. If `current_object` is
absent it does nothing. (Partial bytes flushed by a failed pretty write
are abstracted away.) -/
def emitCallback (pretty : Value → String)
    (writeValue : Value → Except String Unit) (writeLn : Except String Unit)
    (env : EnvModel) (st : OutState) : OutState :=
  match env.currentObject with
  | none => st
  | some obj =>
    match writeValue obj with
    | .error e => { st with logs := st.logs ++ ["Error: " ++ e] }
    | .ok () =>
      match writeLn with
      | .error e =>
          { out := st.out ++ [pretty obj], logs := st.logs ++ ["Error: " ++ e] }
      | .ok () => { st with out := st.out ++ [pretty obj, "\n"] }

/-- Modelled from the spec (§4.3): program nodes of the execution engine
(`xq::runner`, not under `src/`), restricted to the constructs the claims
need: Identity ("emits the current subject unchanged"), Literal, Pipe and
Comma with their stream semantics. -/
inductive FilterNode where
  | identity : FilterNode
  | literal (v : Value) : FilterNode
  | pipe (a b : FilterNode) : FilterNode
  | comma (a b : FilterNode) : FilterNode

/-- Modelled from the spec (§4.3): `evaluate(node, env, emit)` on the
error-free fragment, with the emission stream materialised as the list of
values passed to `emit`, in emission order. -/
def evaluate : FilterNode → Value → List Value
  | .identity, v => [v]
  | .literal l, _ => [l]
  | .pipe a b, v => (evaluate a v).flatMap (evaluate b)
  | .comma a b, v => evaluate a v ++ evaluate b v

/-- The driver's default query string: `#[clap(default_value("."))]` on
`Args::query` in `src/bin/main.rs`. -/
def defaultQuery : String := "."

/-- Modelled from the spec: the external parser turns the filter source
"." into the Identity node (the only production the claims need); any
other source is out of this model's scope. -/
def parseDot (q : String) : Option FilterNode :=
  if q = "." then some .identity else none

/-- The non-integral number 5/2, a concrete offending input. -/
def fiveHalves : ℚ := Rat.mk' 5 2 (by decide) (by decide)

/-- Helper: `beq` decides propositional equality of errors (it is the
structural equality of `derive(PartialEq, Eq)`). -/
theorem beq_eq_true_iff (a b : QueryExecutionError) :
    a.beq b = true ↔ a = b := by
  cases a <;> cases b <;>
    simp [QueryExecutionError.beq, and_assoc]

mutual

/-- Helper: a derived clone of a value rebuilds it identically. -/
theorem cloneValue_eq : ∀ v : Value, cloneValue v = v
  | .null => by rw [cloneValue]
  | .boolean _ => by rw [cloneValue]
  | .number _ => by rw [cloneValue]
  | .string _ => by rw [cloneValue]
  | .array xs => by rw [cloneValue, cloneValueList_eq xs]
  | .object kvs => by rw [cloneValue, cloneObjEntries_eq kvs]

/-- Helper: clone of an element sequence. -/
theorem cloneValueList_eq : ∀ xs : ValueList, cloneValueList xs = xs
  | .nil => by rw [cloneValueList]
  | .cons v rest => by rw [cloneValueList, cloneValue_eq v, cloneValueList_eq rest]

/-- Helper: clone of an entry sequence. -/
theorem cloneObjEntries_eq : ∀ kvs : ObjEntries, cloneObjEntries kvs = kvs
  | .nil => by rw [cloneObjEntries]
  | .cons k v rest => by rw [cloneObjEntries, cloneValue_eq v, cloneObjEntries_eq rest]

end

/-- C1: `QueryExecutionError` is a closed tagged variant with exactly the
twelve enumerated cases: every error value is built by one of the twelve
constructors of the taxonomy (so in particular there is no case for an
undefined variable or function). -/
theorem queryExecutionError_closed_taxonomy (e : QueryExecutionError) :
    (∃ v, e = .ObjectIndexByNonString v) ∨
    (∃ v, e = .ArrayIndexByNonInt v) ∨
    (∃ v, e = .SliceByNonInt v) ∨
    (∃ v, e = .IterateOnNonIterable v) ∨
    (∃ v, e = .IndexOnNonIndexable v) ∨
    (∃ v, e = .SliceOnNonArrayNorString v) ∨
    (∃ n, e = .NonIntegralNumber n) ∨
    (∃ o v, e = .UnaryOnNonNumeric o v) ∨
    (∃ o l r, e = .IncompatibleBinaryOperator o l r) ∨
    (∃ n, e = .StringRepeatByNonUSize n) ∨
    e = .DivModByZero ∨
    (∃ v, e = .ObjectNonStringKey v) := by
  cases e <;> simp

/-- C2 counterexample: not every case carries a payload — `DivModByZero`
is a unit case with no payload at all. -/
theorem not_every_case_carries_payload :
    ¬ ∀ e : QueryExecutionError, 1 ≤ (QueryExecutionError.payloads e).length := by
  intro h
  have h0 := h .DivModByZero
  simp [QueryExecutionError.payloads] at h0

/-- C2 (amended): every case of `QueryExecutionError` except the nullary
`DivModByZero` carries at least one payload identifying the value(s),
number or operator that violated the operation's precondition. -/
theorem payloads_nonempty_except_divModByZero (e : QueryExecutionError)
    (h : e ≠ .DivModByZero) :
    1 ≤ (QueryExecutionError.payloads e).length := by
  cases e <;> simp [QueryExecutionError.payloads] at h ⊢

/-- Witness for the amended C2 at a concrete error value. -/
theorem payloads_nonempty_except_divModByZero_witness :
    1 ≤ (QueryExecutionError.payloads (.ObjectIndexByNonString .null)).length :=
  payloads_nonempty_except_divModByZero (.ObjectIndexByNonString .null) (by decide)

/-- C3: at the error values the engine would build for an array indexed by
the non-integral number 5/2 and for a slice bound of 5/2, the diagnostics
do not describe the taxonomy's triggers: `ArrayIndexByNonInt` renders
"Object was indexed by non-integer value ..." — it never mentions an
array — and `SliceByNonInt` renders "Slice on non-array ..." (the trigger
text of `SliceOnNonArrayNorString`) — it never mentions integrality. -/
theorem message_misdescribes_trigger :
    QueryExecutionError.message (.ArrayIndexByNonInt (.number fiveHalves)) =
      "Object was indexed by non-integer value `Number(5/2)`" ∧
    QueryExecutionError.message (.SliceByNonInt (.number fiveHalves)) =
      "Slice on non-array `Number(5/2)`" ∧
    mentionsArray
      (QueryExecutionError.message (.ArrayIndexByNonInt (.number fiveHalves))) = false ∧
    mentionsIntegrality
      (QueryExecutionError.message (.SliceByNonInt (.number fiveHalves))) = false := by
  refine ⟨by decide, by decide, by decide, by decide⟩

/-- C4: structural equality of `QueryExecutionError` (its
`derive(PartialEq, Eq)`) is a decision procedure for propositional
equality, hence decidable; it is reflexive, symmetric and transitive; and
the derived `clone` of any error equals the original (all operations are
pure — no hidden mutable state). -/
theorem error_eq_decidable_equiv_clone :
    (∀ a b : QueryExecutionError, a.beq b = true ↔ a = b) ∧
    (∀ a : QueryExecutionError, a.beq a = true) ∧
    (∀ a b : QueryExecutionError, a.beq b = b.beq a) ∧
    (∀ a b c : QueryExecutionError,
      a.beq b = true → b.beq c = true → a.beq c = true) ∧
    (∀ e : QueryExecutionError, e.clone = e) := by
  refine ⟨beq_eq_true_iff, ?_, ?_, ?_, ?_⟩
  · intro a
    exact (beq_eq_true_iff a a).mpr rfl
  · intro a b
    by_cases h : a = b
    · subst h
      rfl
    · have h₁ : a.beq b = false := by
        rcases hb : a.beq b with _ | _
        · rfl
        · exact absurd ((beq_eq_true_iff a b).mp hb) h
      have h₂ : b.beq a = false := by
        rcases hb : b.beq a with _ | _
        · rfl
        · exact absurd ((beq_eq_true_iff b a).mp hb).symm h
      rw [h₁, h₂]
  · intro a b c hab hbc
    have h₁ := (beq_eq_true_iff a b).mp hab
    have h₂ := (beq_eq_true_iff b c).mp hbc
    exact (beq_eq_true_iff a c).mpr (h₁.trans h₂)
  · intro e
    cases e <;> simp [QueryExecutionError.clone, cloneValue_eq]

/-- Witness for C4 at concrete error values, exercising the iff, the
transitivity clause (hypotheses discharged by evaluation) and clone. -/
theorem error_eq_decidable_equiv_clone_witness :
    QueryExecutionError.beq .DivModByZero .DivModByZero = true ∧
    QueryExecutionError.clone (.ObjectNonStringKey .null) =
      .ObjectNonStringKey .null :=
  ⟨error_eq_decidable_equiv_clone.2.2.2.1 .DivModByZero .DivModByZero
      .DivModByZero (by decide) (by decide),
   error_eq_decidable_equiv_clone.2.2.2.2 (.ObjectNonStringKey .null)⟩

/-- C5: `UnaryOnNonNumeric` carries exactly the operator symbol and the
single offending value (two payload fields) and `IncompatibleBinaryOperator`
exactly the operator symbol and both operands (three payload fields);
projecting an error built from these cases recovers them. -/
theorem operator_error_payload_projections :
    (∀ (o : String) (v : Value),
      QueryExecutionError.unaryParts (.UnaryOnNonNumeric o v) = some (o, v) ∧
      QueryExecutionError.payloads (.UnaryOnNonNumeric o v) =
        [.op o, .val v]) ∧
    (∀ (o : String) (l r : Value),
      QueryExecutionError.binaryParts (.IncompatibleBinaryOperator o l r) =
        some (o, l, r) ∧
      QueryExecutionError.payloads (.IncompatibleBinaryOperator o l r) =
        [.op o, .val l, .val r]) :=
  ⟨fun _ _ => ⟨rfl, rfl⟩, fun _ _ _ => ⟨rfl, rfl⟩⟩

/-- C6: for any per-document evaluator (including ones whose outcome
records emitted values and a terminal failure), the driver loop processes
an all-decodable input stream strictly in input order, pairing each
document with its complete outcome before the next appears in the trace;
because the quantification is over every `runDoc` — failing outcomes
included — a failure while evaluating one document never prevents the
following documents from being evaluated. -/
theorem mainLoop_in_order_failure_not_fatal
    (runDoc : Value → EvalOutcome) (docs : List Value) :
    mainLoop runDoc (docs.map Except.ok) =
      (docs.map fun v => (v, runDoc v), none) := by
  induction docs with
  | nil => rfl
  | cons v rest ih => simp [mainLoop, ih]

/-- C7: evaluating the Identity node — what the driver's default query "."
parses to — against any subject emits exactly one value, the subject
itself. -/
theorem identity_emits_subject_once (v : Value) :
    evaluate FilterNode.identity v = [v] ∧
    parseDot defaultQuery = some FilterNode.identity :=
  ⟨rfl, rfl⟩

/-- C8: `init_log`'s clamped index is always within the six-element level
array; the selected level is monotone in the verbosity count; verbosity 0
selects `Off`; any verbosity of 5 or more selects `Trace`. -/
theorem init_log_level_selection_safe :
    (∀ verbosity : Nat, levelIndex verbosity < levels.length) ∧
    (∀ v₁ v₂ : Nat, v₁ ≤ v₂ →
      levelRank (selectedLevel v₁) ≤ levelRank (selectedLevel v₂)) ∧
    selectedLevel 0 = LevelFilter.Off ∧
    (∀ verbosity : Nat, 5 ≤ verbosity →
      selectedLevel verbosity = LevelFilter.Trace) := by
  have hidx : ∀ v : Nat, levelIndex v = min v 5 := by
    intro v
    simp [levelIndex, levels]
  have hrank : ∀ v : Nat, levelRank (selectedLevel v) = min v 5 := by
    intro v
    match v with
    | 0 => rfl
    | 1 => rfl
    | 2 => rfl
    | 3 => rfl
    | 4 => rfl
    | n + 5 =>
      have h5 : levelIndex (n + 5) = 5 := by
        rw [hidx]
        omega
      simp [selectedLevel, h5, levels, levelRank]
  refine ⟨?_, ?_, rfl, ?_⟩
  · intro v
    rw [hidx]
    simp [levels]
  · intro v₁ v₂ h
    rw [hrank, hrank]
    omega
  · intro v hv
    have h5 : levelIndex v = 5 := by
      rw [hidx]
      omega
    simp [selectedLevel, h5, levels]

/-- Witness for C8 at concrete verbosities, exercising the bound, the
monotonicity clause and the Trace clause. -/
theorem init_log_level_selection_safe_witness :
    levelIndex 7 < levels.length ∧
    levelRank (selectedLevel 2) ≤ levelRank (selectedLevel 9) ∧
    selectedLevel 6 = LevelFilter.Trace :=
  ⟨init_log_level_selection_safe.1 7,
   init_log_level_selection_safe.2.1 2 9 (by decide),
   init_log_level_selection_safe.2.2.2 6 (by decide)⟩

/-- C9: the emission callback writes the pretty-printed value followed by a
newline when `current_object` is present and both write steps succeed; a
failing write step is logged and never propagated (the callback is a total
function into the output state); an absent `current_object` leaves the
state untouched. -/
theorem emit_callback_behaviour (pretty : Value → String)
    (writeValue : Value → Except String Unit) (writeLn : Except String Unit)
    (env : EnvModel) (st : OutState) :
    (env.currentObject = none →
      emitCallback pretty writeValue writeLn env st = st) ∧
    (∀ obj, env.currentObject = some obj →
      (writeValue obj = .ok () → writeLn = .ok () →
        emitCallback pretty writeValue writeLn env st =
          { st with out := st.out ++ [pretty obj, "\n"] }) ∧
      (∀ e, writeValue obj = .error e →
        emitCallback pretty writeValue writeLn env st =
          { st with logs := st.logs ++ ["Error: " ++ e] }) ∧
      (∀ e, writeValue obj = .ok () → writeLn = .error e →
        emitCallback pretty writeValue writeLn env st =
          { out := st.out ++ [pretty obj],
            logs := st.logs ++ ["Error: " ++ e] })) := by
  constructor
  · intro h
    simp [emitCallback, h]
  · intro obj hobj
    refine ⟨?_, ?_, ?_⟩
    · intro hv hl
      simp [emitCallback, hobj, hv, hl]
    · intro e hv
      simp [emitCallback, hobj, hv]
    · intro e hv hl
      simp [emitCallback, hobj, hv, hl]

/-- Witness for C9 at a concrete environment and output state. -/
theorem emit_callback_behaviour_witness :
    emitCallback (fun _ => "null") (fun _ => .ok ()) (.ok ())
      ⟨some Value.null⟩ ⟨[], []⟩ =
      { out := ["null", "\n"], logs := [] } :=
  ((emit_callback_behaviour (fun _ => "null") (fun _ => .ok ()) (.ok ())
      ⟨some Value.null⟩ ⟨[], []⟩).2 Value.null rfl).1 rfl rfl

/-- C10: a decode failure is fatal to the whole run — the loop returns the
decode error at once: the documents after it (an arbitrary `rest`) are
never read or evaluated, no query is run for the failing document, and
only the documents before it were evaluated. -/
theorem mainLoop_decode_error_fatal (runDoc : Value → EvalOutcome)
    (pre : List Value) (e : String) (rest : List (Except String Value)) :
    mainLoop runDoc (pre.map Except.ok ++ Except.error e :: rest) =
      (pre.map fun v => (v, runDoc v), some e) := by
  induction pre with
  | nil => rfl
  | cons v p ih => simp [mainLoop, ih]

/-- Witness for C1 at the concrete error value `DivModByZero`. -/
theorem queryExecutionError_closed_taxonomy_witness :
    (∃ v, QueryExecutionError.DivModByZero = .ObjectIndexByNonString v) ∨
    (∃ v, QueryExecutionError.DivModByZero = .ArrayIndexByNonInt v) ∨
    (∃ v, QueryExecutionError.DivModByZero = .SliceByNonInt v) ∨
    (∃ v, QueryExecutionError.DivModByZero = .IterateOnNonIterable v) ∨
    (∃ v, QueryExecutionError.DivModByZero = .IndexOnNonIndexable v) ∨
    (∃ v, QueryExecutionError.DivModByZero = .SliceOnNonArrayNorString v) ∨
    (∃ n, QueryExecutionError.DivModByZero = .NonIntegralNumber n) ∨
    (∃ o v, QueryExecutionError.DivModByZero = .UnaryOnNonNumeric o v) ∨
    (∃ o l r, QueryExecutionError.DivModByZero = .IncompatibleBinaryOperator o l r) ∨
    (∃ n, QueryExecutionError.DivModByZero = .StringRepeatByNonUSize n) ∨
    QueryExecutionError.DivModByZero = .DivModByZero ∨
    (∃ v, QueryExecutionError.DivModByZero = .ObjectNonStringKey v) :=
  queryExecutionError_closed_taxonomy .DivModByZero

/-- Witness for C5 at the concrete operator "-" and operands. -/
theorem operator_error_payload_projections_witness :
    QueryExecutionError.unaryParts (.UnaryOnNonNumeric ("-") .null) =
      some ("-", .null) ∧
    QueryExecutionError.payloads (.UnaryOnNonNumeric ("-") .null) =
      [.op ("-"), .val .null] :=
  operator_error_payload_projections.1 ("-") Value.null

/-- Witness for C6 on a concrete two-document stream with an evaluator
that fails on every document: both documents are still evaluated, in
order. -/
theorem mainLoop_in_order_failure_not_fatal_witness :
    mainLoop (fun v => ⟨[], some (.IterateOnNonIterable v)⟩)
      ([Value.null, Value.boolean true].map Except.ok) =
      ([(Value.null, ⟨[], some (.IterateOnNonIterable Value.null)⟩),
        (Value.boolean true,
          ⟨[], some (.IterateOnNonIterable (Value.boolean true))⟩)], none) :=
  mainLoop_in_order_failure_not_fatal
    (fun v => ⟨[], some (.IterateOnNonIterable v)⟩)
    [Value.null, Value.boolean true]

/-- Witness for C7 at the concrete subject `Null`. -/
theorem identity_emits_subject_once_witness :
    evaluate FilterNode.identity Value.null = [Value.null] ∧
    parseDot defaultQuery = some FilterNode.identity :=
  identity_emits_subject_once Value.null

/-- Witness for C10 on a concrete stream: one good document, then a decode
error, then a further document that is never reached. -/
theorem mainLoop_decode_error_fatal_witness :
    mainLoop (fun v => ⟨[v], none⟩)
      ([Value.null].map Except.ok ++
        Except.error ("bad json") :: [Except.ok (Value.boolean false)]) =
      ([(Value.null, ⟨[Value.null], none⟩)], some ("bad json")) :=
  mainLoop_decode_error_fatal (fun v => ⟨[v], none⟩) [Value.null]
    ("bad json") [Except.ok (Value.boolean false)]
